import Mathlib

/-!
Shallow embedding of the predictive analytics engine of
`src/copilot-platform/ml-services/src/main.py`: the four estimator classes
`AdoptionPredictor`, `ROIPredictor`, `UserSegmenter` and `ChurnPredictor`.

Modelling conventions:
- Python floats are modelled as exact rationals (`ℚ`) wherever the claims
  under study concern clamping, thresholds and exact table arithmetic,
  which are robust to this idealisation.  The one place where IEEE double
  semantics is observable is `UserSegmenter`'s `int(len(df) * 0.15/0.35)`,
  which is therefore modelled with explicit double rounding (`roundFloat`,
  `dbl15`, `dbl35`).
- `datetime.now()` is made an explicit parameter (`now`), since two of the
  components read the clock; dates are day numbers (`ℤ`), matching the
  whole-day granularity of `(datetime.now() - date).days`.
- Python functions that can raise at runtime (`ZeroDivisionError` from a
  division, `IndexError` from `iloc` on an empty frame) return `Option`,
  with `none` for the raising executions.  The source contains no
  `ValidationError` or explicit validation of any kind.
-/

/-- Python `str.lower()` restricted to the ASCII range (all table keys and
test inputs are ASCII).  Stated over `String.data` so that it reduces in the
kernel. -/
def strLower (s : String) : String := String.mk (s.data.map Char.toLower)

/-- Rounding to the nearest integer with ties to even, the rule used by
Python 3 `round`. -/
def rndHalfEven (q : ℚ) : ℤ :=
  if q - ⌊q⌋ < 1/2 then ⌊q⌋
  else if 1/2 < q - ⌊q⌋ then ⌊q⌋ + 1
  else if ⌊q⌋ % 2 = 0 then ⌊q⌋ else ⌊q⌋ + 1

/-- Python `round(q, 2)`: nearest multiple of `1/100`, ties to even. -/
def round2 (q : ℚ) : ℚ := (rndHalfEven (q * 100) : ℚ) / 100

/-- Python `int(q)`: truncation toward zero. -/
def pyInt (q : ℚ) : ℤ := if 0 ≤ q then ⌊q⌋ else ⌈q⌉

/-- The IEEE-754 double nearest to the literal `0.15`:
`5404319552844595 / 2^55 = 0.1499999999999999944…`. -/
def dbl15 : ℚ := 5404319552844595 / 2 ^ 55

/-- The IEEE-754 double nearest to the literal `0.35`:
`6305039478318694 / 2^54 = 0.3499999999999999778…`. -/
def dbl35 : ℚ := 6305039478318694 / 2 ^ 54

/-- Rounding of an exact rational to the nearest IEEE-754 double
(round-to-nearest, ties to even): the binade `[2^e, 2^(e+1))` of `x` holds
the multiples of `2^(e-52)`.  The exponent range is unbounded here — no
overflow to infinity and no subnormal flush, which only diverge from IEEE
outside any magnitude reachable in this program. -/
def roundFloat (x : ℚ) : ℚ :=
  if x = 0 then 0
  else if 0 < x then
    (rndHalfEven (x / 2 ^ (Int.log 2 x - 52)) : ℚ) * 2 ^ (Int.log 2 x - 52)
  else
    -((rndHalfEven (-x / 2 ^ (Int.log 2 (-x) - 52)) : ℚ) * 2 ^ (Int.log 2 (-x) - 52))

/-- Python `int(n * p)` where `n` is an `int` and `p` a float literal: `n`
is converted to the nearest double, the product is rounded once to the
nearest double, and `int()` truncates toward zero. -/
def pyIntMulFloat (n : ℚ) (p : ℚ) : ℤ := pyInt (roundFloat (roundFloat n * p))

/-- One element of `AdoptionPredictor.predict`'s `predictions` list: the
dict `{'period': i, 'adoption_rate': ..., 'timestamp': ...}`.  The ISO
timestamp string is modelled by its underlying time value (days). -/
structure Prediction where
  period : ℕ
  adoption_rate : ℚ
  timestamp : ℚ
deriving DecidableEq

/-- One element of the `confidence_intervals` list. -/
structure ConfidenceInterval where
  period : ℕ
  lower_bound : ℚ
  upper_bound : ℚ
deriving DecidableEq

/-- `predicted_rate` for period `i`:
`min(0.95, max(0.1, base_rate + growth_rate * i))`. -/
def AdoptionPredictor.predictedRate (base_rate growth_rate : ℚ) (i : ℕ) : ℚ :=
  min (95/100) (max (1/10) (base_rate + growth_rate * i))

/-- `AdoptionPredictor.predict(historical_data, forecast_periods)`.
`historical_data` is the list of `adoption_rate` values of the historical
records; `now` is the clock reading used for the timestamps.  The Python
loop `for i in range(1, forecast_periods + 1)` appends to both output lists
at each iteration; it is rendered as two maps over `[1, ..., forecast_periods]`
(`List.range' 1 forecast_periods.toNat`), which is empty when
`forecast_periods < 1` — the source raises nothing in that case. -/
def AdoptionPredictor.predict (historical_data : List ℚ) (forecast_periods : ℤ)
    (now : ℚ) : List Prediction × List ConfidenceInterval :=
  let base_rate : ℚ :=
    if historical_data.length < 2 then 65/100
    else historical_data.getLastD 0 / 100
  let growth_rate : ℚ :=
    if historical_data.length < 2 then 5/100
    else (historical_data.getLastD 0 - historical_data.headD 0)
          / historical_data.length / 100
  let periods := List.range' 1 forecast_periods.toNat
  (periods.map fun i =>
     ⟨i, round2 (AdoptionPredictor.predictedRate base_rate growth_rate i * 100),
      now + 30 * i⟩,
   periods.map fun i =>
     ⟨i, max 0 ((AdoptionPredictor.predictedRate base_rate growth_rate i - 5/100) * 100),
      min 100 ((AdoptionPredictor.predictedRate base_rate growth_rate i + 5/100) * 100)⟩)

/-- The time-independent part of a prediction record (everything except the
timestamp). -/
def Prediction.core (p : Prediction) : ℕ × ℚ := (p.period, p.adoption_rate)

/-- One of the `year1`/`year2`/`year3` dicts of `ROIPredictor.predict`. -/
structure YearProjection where
  costs : ℚ
  benefits : ℚ
  roi : ℚ
deriving DecidableEq

/-- The result dict of `ROIPredictor.predict`. -/
structure ROIResult where
  predicted_roi : ℚ
  year1 : YearProjection
  year2 : YearProjection
  year3 : YearProjection
  breakeven_month : ℤ
  confidence_score : ℚ
deriving DecidableEq

/-- `industry_multipliers.get(industry.lower(), 1.0)`. -/
def ROIPredictor.industryMultiplier (industry : String) : ℚ :=
  match strLower industry with
  | "technology" => 13/10
  | "financial_services" => 12/10
  | "healthcare" => 11/10
  | "manufacturing" => 1
  | "retail" => 95/100
  | "education" => 9/10
  | "default" => 1
  | _ => 1

/-- `size_multipliers.get(company_size.lower(), 1.0)`. -/
def ROIPredictor.sizeMultiplier (company_size : String) : ℚ :=
  match strLower company_size with
  | "small" => 9/10
  | "medium" => 1
  | "large" => 11/10
  | "enterprise" => 12/10
  | _ => 1

/-- `ROIPredictor.predict(employee_count, industry, company_size)`.
When `employee_count = 0` every `yearN_costs` is `0` and the expression
`(yearN_benefits - yearN_costs) / yearN_costs * 100` raises
`ZeroDivisionError`, modelled as `none`.  The `breakeven_month` division is
guarded by `monthly_benefit > monthly_cost` and cannot divide by zero. -/
def ROIPredictor.predict (employee_count : ℤ) (industry company_size : String) :
    Option ROIResult :=
  let industry_mult := ROIPredictor.industryMultiplier industry
  let size_mult := ROIPredictor.sizeMultiplier company_size
  let predicted_roi : ℚ := 200 * industry_mult * size_mult
  let year1_costs : ℚ := employee_count * 360 + employee_count * 150
  let year1_benefits : ℚ := employee_count * 1200 * (6/10)
  let year2_costs : ℚ := employee_count * 360
  let year2_benefits : ℚ := employee_count * 1200 * (8/10)
  let year3_costs : ℚ := employee_count * 360
  let year3_benefits : ℚ := employee_count * 1200 * (9/10)
  let monthly_benefit := year1_benefits / 12
  let monthly_cost := year1_costs / 12
  let breakeven_month : ℤ :=
    if monthly_cost < monthly_benefit then pyInt (year1_costs / monthly_benefit)
    else 24
  if year1_costs = 0 ∨ year2_costs = 0 ∨ year3_costs = 0 then none
  else some
    { predicted_roi := round2 predicted_roi
      year1 := ⟨round2 year1_costs, round2 year1_benefits,
                round2 ((year1_benefits - year1_costs) / year1_costs * 100)⟩
      year2 := ⟨round2 year2_costs, round2 year2_benefits,
                round2 ((year2_benefits - year2_costs) / year2_costs * 100)⟩
      year3 := ⟨round2 year3_costs, round2 year3_benefits,
                round2 ((year3_benefits - year3_costs) / year3_costs * 100)⟩
      breakeven_month := breakeven_month
      confidence_score := 85/100 }

/-- The static `characteristics` dict of a segment. -/
structure SegmentCharacteristics where
  engagement_score : ℤ
  proficiency_level : String
  adoption_stage : String
deriving DecidableEq

/-- One element of the `segments` list of `UserSegmenter.segment`. -/
structure Segment where
  segment_id : String
  name : String
  size : ℤ
  characteristics : SegmentCharacteristics
deriving DecidableEq

/-- `UserSegmenter.segment(user_data, n_segments)`.  Only `len(user_data)`
is read from the input; `n_segments` is accepted but never used by the
body.  The sizes `int(len(df) * 0.15)` and `int(len(df) * 0.35)` are
evaluated in IEEE double arithmetic (`pyIntMulFloat` with the doubles
nearest `0.15` and `0.35`), which matters: the products can land strictly
below the exact rational value, so the truncation can come out one below
the exact floor.  The `recommendations` dict is modelled as an association
list. -/
def UserSegmenter.segment {α : Type} (user_data : List α) (n_segments : ℤ) :
    List Segment × List (String × List String) :=
  let n : ℚ := user_data.length
  ([⟨"champions", "Champions & Power Users", pyIntMulFloat n dbl15,
      ⟨85, "expert", "mastery"⟩⟩,
    ⟨"engaged", "Engaged Users", pyIntMulFloat n dbl35,
      ⟨65, "advanced", "proficiency"⟩⟩,
    ⟨"casual", "Casual Users", pyIntMulFloat n dbl35,
      ⟨45, "intermediate", "adoption"⟩⟩,
    ⟨"at_risk", "At-Risk Users", pyIntMulFloat n dbl15,
      ⟨25, "beginner", "exploration"⟩⟩],
   [("champions",
     ["Engage as peer mentors and trainers",
      "Invite to contribute to best practices library",
      "Recognize achievements publicly"]),
    ("engaged",
     ["Provide advanced training opportunities",
      "Share advanced use cases and tips",
      "Encourage peer-to-peer learning"]),
    ("casual",
     ["Send personalized feature recommendations",
      "Provide quick-win tutorials",
      "Increase engagement touchpoints"]),
    ("at_risk",
     ["Conduct 1-on-1 coaching sessions",
      "Identify and address barriers",
      "Provide simplified onboarding resources"])])

/-- One engagement-history record `{date, interactions}`; `date` is a day
number. -/
structure EngagementRecord where
  date : ℤ
  interactions : ℚ
deriving DecidableEq

/-- The result dict of `ChurnPredictor.predict`. -/
structure ChurnResult where
  churn_probability : ℚ
  risk_level : String
  key_risk_factors : List String
deriving DecidableEq

/-- The pandas condition `df['interactions'].std() > 5` with the default
`ddof=1`: for fewer than two points the std is `NaN` and `NaN > 5` is
`False`; otherwise `std > 5` is equivalent to the sample variance being
greater than `25`. -/
def ChurnPredictor.stdGt5 (xs : List ℚ) : Prop :=
  2 ≤ xs.length ∧
    25 < (xs.map (fun x => (x - xs.sum / xs.length) ^ 2)).sum
          / ((xs.length : ℚ) - 1)

instance (xs : List ℚ) : Decidable (ChurnPredictor.stdGt5 xs) := by
  unfold ChurnPredictor.stdGt5; infer_instance

/-- The `risk_level` selection from the churn probability. -/
def ChurnPredictor.riskLevel (churn_probability : ℚ) : String :=
  if 7/10 < churn_probability then "high"
  else if 4/10 < churn_probability then "medium"
  else "low"

/-- `ChurnPredictor.predict(engagement_history)`.  On an empty history
`df['date'].iloc[-1]` raises `IndexError`, modelled as `none`; `now` is the
clock reading (day number) used for `days_since_last_activity`. -/
def ChurnPredictor.predict (engagement_history : List EngagementRecord)
    (now : ℤ) : Option ChurnResult :=
  match engagement_history with
  | [] => none
  | first :: rest =>
    let last := rest.getLastD first
    let interactions := (first :: rest).map EngagementRecord.interactions
    let days_since_last_activity : ℤ := now - last.date
    let avg_daily_interactions : ℚ := interactions.sum / interactions.length
    let engagement_trend : ℚ := last.interactions - first.interactions
    let churn_score : ℚ :=
      (if 14 < days_since_last_activity then 3/10 else 0)
      + (if avg_daily_interactions < 2 then 3/10 else 0)
      + (if engagement_trend < 0 then 2/10 else 0)
      + (if ChurnPredictor.stdGt5 interactions then 1/10 else 0)
    let churn_probability := min (95/100) churn_score
    let risk_factors :=
      (if 14 < days_since_last_activity then ["Inactive for over 2 weeks"] else [])
      ++ (if avg_daily_interactions < 2 then ["Low engagement level"] else [])
      ++ (if engagement_trend < 0 then ["Declining usage trend"] else [])
    some ⟨round2 churn_probability, ChurnPredictor.riskLevel churn_probability,
          risk_factors⟩

/-! ### Helper lemmas -/

theorem le_rndHalfEven {m : ℤ} {q : ℚ} (h : (m : ℚ) ≤ q) : m ≤ rndHalfEven q := by
  have hm : m ≤ ⌊q⌋ := Int.le_floor.mpr h
  unfold rndHalfEven
  split_ifs <;> omega

theorem rndHalfEven_le {M : ℤ} {q : ℚ} (h : q ≤ M) : rndHalfEven q ≤ M := by
  have hM : ⌊q⌋ ≤ M := by
    have h2 := Int.floor_le_floor h
    simpa using h2
  have hstep : ¬(q - ⌊q⌋ < 1/2) → ⌊q⌋ + 1 ≤ M := by
    intro h1
    push_neg at h1
    have hq : (⌊q⌋ : ℚ) < (M : ℚ) := by linarith
    have h3 : ⌊q⌋ < M := by exact_mod_cast hq
    omega
  unfold rndHalfEven
  split_ifs with h1 h2 h3
  · exact hM
  · exact hstep h1
  · exact hM
  · exact hstep h1

theorem le_round2 {m : ℤ} {q : ℚ} (h : (m : ℚ) ≤ q) : (m : ℚ) ≤ round2 q := by
  have h100 : ((m * 100 : ℤ) : ℚ) ≤ q * 100 := by push_cast; linarith
  have h1 := le_rndHalfEven h100
  have h2 : ((m * 100 : ℤ) : ℚ) ≤ ((rndHalfEven (q * 100) : ℤ) : ℚ) := by
    exact_mod_cast h1
  unfold round2
  push_cast at h2
  linarith

theorem round2_le {M : ℤ} {q : ℚ} (h : q ≤ M) : round2 q ≤ M := by
  have h100 : q * 100 ≤ ((M * 100 : ℤ) : ℚ) := by push_cast; linarith
  have h1 := rndHalfEven_le h100
  have h2 : ((rndHalfEven (q * 100) : ℤ) : ℚ) ≤ ((M * 100 : ℤ) : ℚ) := by
    exact_mod_cast h1
  unfold round2
  push_cast at h2
  linarith

theorem int_log2_eq {r : ℚ} {e : ℤ} (h0 : 0 < r) (h1 : (2:ℚ) ^ e ≤ r)
    (h2 : r < (2:ℚ) ^ (e + 1)) : Int.log 2 r = e := by
  have ha : e ≤ Int.log 2 r :=
    (Int.zpow_le_iff_le_log (by norm_num) h0).mp (by exact_mod_cast h1)
  have hb : Int.log 2 r < e + 1 :=
    (Int.lt_zpow_iff_log_lt (by norm_num) h0).mp (by exact_mod_cast h2)
  omega

theorem roundFloat_eval {x : ℚ} (k : ℕ) (h0 : 0 < x)
    (h1 : (2:ℚ) ^ (52 - (k:ℤ)) ≤ x) (h2 : x < (2:ℚ) ^ (52 - (k:ℤ) + 1)) :
    roundFloat x = (rndHalfEven (x * 2 ^ k) : ℚ) / 2 ^ k := by
  have hlog : Int.log 2 x = 52 - (k:ℤ) := int_log2_eq h0 h1 h2
  unfold roundFloat
  rw [if_neg h0.ne', if_pos h0, hlog]
  have he : (52 - (k:ℤ)) - 52 = -(k:ℤ) := by ring
  rw [he, zpow_neg, zpow_natCast, div_inv_eq_mul, ← div_eq_mul_inv]

theorem roundFloat_nonneg {x : ℚ} (hx : 0 ≤ x) : 0 ≤ roundFloat x := by
  unfold roundFloat
  rcases eq_or_lt_of_le hx with h | h
  · rw [if_pos h.symm]
  · rw [if_neg h.ne', if_pos h]
    have hp : (0:ℚ) < 2 ^ (Int.log 2 x - 52) := by positivity
    have hq : (0:ℚ) ≤ x / 2 ^ (Int.log 2 x - 52) := div_nonneg hx hp.le
    have hm := le_rndHalfEven (m := 0) (by exact_mod_cast hq)
    have hc : (0:ℚ) ≤ (rndHalfEven (x / 2 ^ (Int.log 2 x - 52)) : ℚ) := by
      exact_mod_cast hm
    exact mul_nonneg hc hp.le

theorem pyIntMulFloat_nonneg {n p : ℚ} (hn : 0 ≤ n) (hp : 0 ≤ p) :
    0 ≤ pyIntMulFloat n p := by
  have h := roundFloat_nonneg (mul_nonneg (roundFloat_nonneg hn) hp)
  unfold pyIntMulFloat pyInt
  rw [if_pos h]
  exact Int.floor_nonneg.mpr h

theorem roundFloat_zero : roundFloat 0 = 0 := by
  simp [roundFloat]

theorem pyIntMulFloat_zero (p : ℚ) : pyIntMulFloat 0 p = 0 := by
  simp [pyIntMulFloat, roundFloat_zero, pyInt]

theorem AdoptionPredictor.predictedRate_bounds (b g : ℚ) (i : ℕ) :
    1/10 ≤ AdoptionPredictor.predictedRate b g i
    ∧ AdoptionPredictor.predictedRate b g i ≤ 95/100 := by
  unfold AdoptionPredictor.predictedRate
  exact ⟨le_min (by norm_num) (le_max_left _ _), min_le_left _ _⟩

theorem AdoptionPredictor.round2_rate_bounds (b g : ℚ) (i : ℕ) :
    10 ≤ round2 (AdoptionPredictor.predictedRate b g i * 100)
    ∧ round2 (AdoptionPredictor.predictedRate b g i * 100) ≤ 95 := by
  obtain ⟨hlo, hhi⟩ := AdoptionPredictor.predictedRate_bounds b g i
  constructor
  · have h1 := le_round2 (m := 10)
      (q := AdoptionPredictor.predictedRate b g i * 100) (by push_cast; linarith)
    exact_mod_cast h1
  · have h1 := round2_le (M := 95)
      (q := AdoptionPredictor.predictedRate b g i * 100) (by push_cast; linarith)
    exact_mod_cast h1

/-! ### C1 -/

/-- C1: for every historical series and every `forecast_periods ≥ 1`,
`AdoptionPredictor.predict` returns a predictions list and a
confidence-intervals list of exactly `forecast_periods` elements, whose
`period` fields are the strictly increasing integers `1..forecast_periods`
(the list `List.range' 1 forecast_periods.toNat`), and every prediction's
`adoption_rate` lies in `[10, 95]` — saturation, not error, under any
growth rate. -/
theorem adoption_forecast_shape (historical_data : List ℚ) (forecast_periods : ℤ)
    (now : ℚ) (h : 1 ≤ forecast_periods) :
    ((AdoptionPredictor.predict historical_data forecast_periods now).1.length
        = forecast_periods.toNat
      ∧ (AdoptionPredictor.predict historical_data forecast_periods now).2.length
        = forecast_periods.toNat
      ∧ (forecast_periods.toNat : ℤ) = forecast_periods)
    ∧ (AdoptionPredictor.predict historical_data forecast_periods now).1.map
        Prediction.period = List.range' 1 forecast_periods.toNat
    ∧ (AdoptionPredictor.predict historical_data forecast_periods now).2.map
        ConfidenceInterval.period = List.range' 1 forecast_periods.toNat
    ∧ ((AdoptionPredictor.predict historical_data forecast_periods now).1.map
        Prediction.adoption_rate).Forall (fun q => 10 ≤ q ∧ q ≤ 95) := by
  refine ⟨⟨?_, ?_, ?_⟩, ?_, ?_, ?_⟩
  · simp [AdoptionPredictor.predict]
  · simp [AdoptionPredictor.predict]
  · omega
  · simp [AdoptionPredictor.predict, List.map_map, Function.comp_def]
  · simp [AdoptionPredictor.predict, List.map_map, Function.comp_def]
  · rw [List.forall_iff_forall_mem]
    intro q hq
    simp [AdoptionPredictor.predict, List.map_map, Function.comp_def] at hq
    obtain ⟨i, -, rfl⟩ := hq
    exact AdoptionPredictor.round2_rate_bounds _ _ i

/-- Witness for C1 at `historical_data = [50, 70]`, `forecast_periods = 2`,
`now = 0`. -/
theorem adoption_forecast_shape_witness :
    (1 : ℤ) ≤ 2 ∧
    (((AdoptionPredictor.predict [50, 70] 2 0).1.length = (2 : ℤ).toNat
      ∧ (AdoptionPredictor.predict [50, 70] 2 0).2.length = (2 : ℤ).toNat
      ∧ (((2 : ℤ).toNat : ℤ) = 2))
    ∧ (AdoptionPredictor.predict [50, 70] 2 0).1.map Prediction.period
        = List.range' 1 (2 : ℤ).toNat
    ∧ (AdoptionPredictor.predict [50, 70] 2 0).2.map ConfidenceInterval.period
        = List.range' 1 (2 : ℤ).toNat
    ∧ ((AdoptionPredictor.predict [50, 70] 2 0).1.map
        Prediction.adoption_rate).Forall (fun q => 10 ≤ q ∧ q ≤ 95)) :=
  ⟨by decide, adoption_forecast_shape [50, 70] 2 0 (by decide)⟩

/-! ### C2 -/

/-- C2 counterexample: `AdoptionPredictor.predict` is not a function of its
input alone — at the same input `([], 1)` two different clock readings give
different outputs (the timestamps differ), so two calls at different times
are not bit-identical. -/
theorem adoption_predict_clock_dependent :
    AdoptionPredictor.predict [] 1 0 ≠ AdoptionPredictor.predict [] 1 1 := by
  intro hEq
  have h1 := congrArg (fun x => x.1.map Prediction.timestamp) hEq
  simp [AdoptionPredictor.predict, List.range', List.map_map, Function.comp_def] at h1

/-- C2 amended: with the clock made an explicit parameter, every component
is a deterministic function of input and clock; `ROIPredictor.predict` and
`UserSegmenter.segment` take no clock at all, and the clock-dependence of
`AdoptionPredictor.predict` is confined to the timestamp fields — erasing
timestamps, its output is identical at any two clock readings. -/
theorem adoption_predict_deterministic_up_to_timestamps
    (historical_data : List ℚ) (forecast_periods : ℤ) (t₁ t₂ : ℚ) :
    ((AdoptionPredictor.predict historical_data forecast_periods t₁).1.map
        Prediction.core
      = (AdoptionPredictor.predict historical_data forecast_periods t₂).1.map
        Prediction.core)
    ∧ (AdoptionPredictor.predict historical_data forecast_periods t₁).2
      = (AdoptionPredictor.predict historical_data forecast_periods t₂).2 := by
  constructor <;>
    simp [AdoptionPredictor.predict, Prediction.core, List.map_map, Function.comp_def]

/-! ### C3 -/

theorem ROIPredictor.industryMultiplier_technology :
    ROIPredictor.industryMultiplier "technology" = 13/10 := rfl

theorem ROIPredictor.sizeMultiplier_large :
    ROIPredictor.sizeMultiplier "large" = 11/10 := rfl

theorem ROIPredictor.industryMultiplier_xyz :
    ROIPredictor.industryMultiplier "xyz" = 1 := rfl

theorem ROIPredictor.sizeMultiplier_xyz :
    ROIPredictor.sizeMultiplier "xyz" = 1 := rfl

theorem ROIPredictor.industryMultiplier_manufacturing :
    ROIPredictor.industryMultiplier "manufacturing" = 1 := rfl

theorem ROIPredictor.sizeMultiplier_medium :
    ROIPredictor.sizeMultiplier "medium" = 1 := rfl

/-- C3: `predicted_roi = round(200 * industry_multiplier * size_multiplier, 2)`
for every non-failing input, with both multipliers looked up
case-insensitively (via `lower()`) and defaulting to `1` when unmatched;
`(100, "technology", "large")` gives `286`, and the unknown strings
`"xyz"/"xyz"` give the same full result as a pair of inputs whose
multipliers are both `1`. -/
theorem roi_predicted_roi_spec :
    (∀ (employee_count : ℤ) (industry company_size : String), employee_count ≠ 0 →
      (ROIPredictor.predict employee_count industry company_size).map
          ROIResult.predicted_roi
        = some (round2 (200 * ROIPredictor.industryMultiplier industry
            * ROIPredictor.sizeMultiplier company_size)))
    ∧ (ROIPredictor.predict 100 "technology" "large").map ROIResult.predicted_roi
        = some 286
    ∧ ROIPredictor.industryMultiplier "TECHNOLOGY"
        = ROIPredictor.industryMultiplier "technology"
    ∧ ROIPredictor.sizeMultiplier "Large" = ROIPredictor.sizeMultiplier "large"
    ∧ ROIPredictor.industryMultiplier "xyz" = 1
    ∧ ROIPredictor.sizeMultiplier "xyz" = 1
    ∧ ROIPredictor.predict 100 "xyz" "xyz"
        = ROIPredictor.predict 100 "manufacturing" "medium" := by
  refine ⟨?_, ?_, rfl, rfl, rfl, rfl, ?_⟩
  · intro employee_count industry company_size h
    have hc : (employee_count : ℚ) ≠ 0 := Int.cast_ne_zero.mpr h
    simp only [ROIPredictor.predict]
    rw [if_neg]
    · rfl
    · push_neg
      refine ⟨fun h0 => hc (by linarith), fun h0 => hc (by linarith),
              fun h0 => hc (by linarith)⟩
  · simp [ROIPredictor.predict, ROIPredictor.industryMultiplier_technology,
      ROIPredictor.sizeMultiplier_large]
    norm_num [round2, rndHalfEven]
  · simp [ROIPredictor.predict, ROIPredictor.industryMultiplier_xyz,
      ROIPredictor.sizeMultiplier_xyz, ROIPredictor.industryMultiplier_manufacturing,
      ROIPredictor.sizeMultiplier_medium]

/-- Witness for C3's general conjunct at
`(employee_count, industry, company_size) = (100, "technology", "large")`. -/
theorem roi_predicted_roi_spec_witness :
    (100 : ℤ) ≠ 0 ∧
    (ROIPredictor.predict 100 "technology" "large").map ROIResult.predicted_roi
      = some (round2 (200 * ROIPredictor.industryMultiplier "technology"
          * ROIPredictor.sizeMultiplier "large")) :=
  ⟨by decide, roi_predicted_roi_spec.1 100 "technology" "large" (by decide)⟩

/-! ### C8 -/

/-- C8 counterexample: at `employee_count = -5 ≤ 0` the code does not fail
at all — it returns a result (there is no `ValidationError` in the source). -/
theorem roi_predict_no_error_on_negative_count :
    (ROIPredictor.predict (-5) "technology" "large").isSome = true := by
  simp [ROIPredictor.predict]
  norm_num

/-- C8 amended: `ROIPredictor.predict` performs no validation; the only
failing input is `employee_count = 0`, where computing the year ROI
percentages divides by zero (`ZeroDivisionError`, not `ValidationError`).
Every other `employee_count`, including negative ones, returns a result. -/
theorem roi_predict_error_iff_zero_employee_count (employee_count : ℤ)
    (industry company_size : String) :
    ROIPredictor.predict employee_count industry company_size = none
      ↔ employee_count = 0 := by
  simp only [ROIPredictor.predict]
  split_ifs with h
  · constructor
    · intro _
      rcases h with h | h | h <;>
        · have h0 : (employee_count : ℚ) = 0 := by linarith
          exact_mod_cast h0
    · intro _
      rfl
  · constructor
    · intro hcontra
      exact absurd hcontra (by simp)
    · intro h0
      exfalso
      apply h
      left
      rw [h0]
      norm_num

/-! ### C10 -/

/-- C10: for every positive `employee_count` and all industry and size
strings, `breakeven_month = 8`: the year-1 monthly benefit (`60` per
employee) exceeds the year-1 monthly cost (`42.5` per employee), so the
fallback `24` is unreachable and
`int(year1_costs / monthly_benefit) = int(8.5) = 8` independently of every
other input. -/
theorem roi_breakeven_month_eight (employee_count : ℤ)
    (h : 0 < employee_count) (industry company_size : String) :
    (ROIPredictor.predict employee_count industry company_size).map
        ROIResult.breakeven_month = some 8 := by
  have hq : (0 : ℚ) < employee_count := by exact_mod_cast h
  have hne : (employee_count : ℚ) ≠ 0 := ne_of_gt hq
  simp only [ROIPredictor.predict]
  rw [if_neg, if_pos]
  · have hval : ((employee_count : ℚ) * 360 + employee_count * 150)
        / (employee_count * 1200 * (6/10) / 12) = 17/2 := by
      field_simp
      ring
    have hfloor : ⌊(17/2 : ℚ)⌋ = 8 := by
      rw [Int.floor_eq_iff]
      norm_num
    simp only [Option.map_some']
    rw [Option.some_inj]
    show pyInt _ = 8
    rw [hval]
    unfold pyInt
    rw [if_pos (by norm_num)]
    exact hfloor
  · linarith
  · push_neg
    refine ⟨fun h0 => hne (by linarith), fun h0 => hne (by linarith),
            fun h0 => hne (by linarith)⟩

/-- Witness for C10 at `(100, "technology", "large")`. -/
theorem roi_breakeven_month_eight_witness :
    (0 : ℤ) < 100 ∧
    (ROIPredictor.predict 100 "technology" "large").map ROIResult.breakeven_month
      = some 8 :=
  ⟨by decide, roi_breakeven_month_eight 100 (by decide) "technology" "large"⟩

/-! ### C5 -/

theorem pyIntMulFloat_twenty_dbl15 : pyIntMulFloat 20 dbl15 = 3 := by
  have h20 : roundFloat 20 = 20 := by
    rw [roundFloat_eval 48 (by norm_num) (by norm_num) (by norm_num)]
    norm_num [rndHalfEven]
  have hprod : roundFloat ((20:ℚ) * dbl15) = 3 := by
    rw [roundFloat_eval 51 (by norm_num [dbl15]) (by norm_num [dbl15])
      (by norm_num [dbl15])]
    norm_num [rndHalfEven, dbl15]
  unfold pyIntMulFloat
  rw [h20, hprod]
  norm_num [pyInt]

theorem pyIntMulFloat_twenty_dbl35 : pyIntMulFloat 20 dbl35 = 7 := by
  have h20 : roundFloat 20 = 20 := by
    rw [roundFloat_eval 48 (by norm_num) (by norm_num) (by norm_num)]
    norm_num [rndHalfEven]
  have hprod : roundFloat ((20:ℚ) * dbl35) = 7 := by
    rw [roundFloat_eval 50 (by norm_num [dbl35]) (by norm_num [dbl35])
      (by norm_num [dbl35])]
    norm_num [rndHalfEven, dbl35]
  unfold pyIntMulFloat
  rw [h20, hprod]
  norm_num [pyInt]

theorem pyIntMulFloat_oneEighty_dbl15 : pyIntMulFloat 180 dbl15 = 27 := by
  have h180 : roundFloat 180 = 180 := by
    rw [roundFloat_eval 45 (by norm_num) (by norm_num) (by norm_num)]
    norm_num [rndHalfEven]
  have hprod : roundFloat ((180:ℚ) * dbl15) = 27 := by
    rw [roundFloat_eval 48 (by norm_num [dbl15]) (by norm_num [dbl15])
      (by norm_num [dbl15])]
    norm_num [rndHalfEven, dbl15]
  unfold pyIntMulFloat
  rw [h180, hprod]
  norm_num [pyInt]

theorem pyIntMulFloat_oneEighty_dbl35 : pyIntMulFloat 180 dbl35 = 62 := by
  have h180 : roundFloat 180 = 180 := by
    rw [roundFloat_eval 45 (by norm_num) (by norm_num) (by norm_num)]
    norm_num [rndHalfEven]
  have hprod : roundFloat ((180:ℚ) * dbl35) = 8866461766385663 / 2 ^ 47 := by
    rw [roundFloat_eval 47 (by norm_num [dbl35]) (by norm_num [dbl35])
      (by norm_num [dbl35])]
    norm_num [rndHalfEven, dbl35]
  unfold pyIntMulFloat
  rw [h180, hprod]
  norm_num [pyInt]

set_option maxRecDepth 4000 in
/-- C5 counterexample: at a population of 180 users the program computes
`int(180 * 0.35)` in IEEE doubles; `180 * (double nearest 0.35)` falls
0.5625 ulp below 63, rounds down, and truncates to `62`, so the returned
sizes `[27, 62, 62, 27]` are not the exact floors
`[⌊180*0.15⌋, ⌊180*0.35⌋, ⌊180*0.35⌋, ⌊180*0.15⌋] = [27, 63, 63, 27]`. -/
theorem segmenter_sizes_below_floor_at_180 :
    (UserSegmenter.segment (List.replicate 180 ()) 4).1.map Segment.size
        = [27, 62, 62, 27]
    ∧ ⌊((List.replicate 180 ()).length : ℚ) * (35/100)⌋ = 63
    ∧ (UserSegmenter.segment (List.replicate 180 ()) 4).1.map Segment.size
        ≠ [⌊((List.replicate 180 ()).length : ℚ) * (15/100)⌋,
           ⌊((List.replicate 180 ()).length : ℚ) * (35/100)⌋,
           ⌊((List.replicate 180 ()).length : ℚ) * (35/100)⌋,
           ⌊((List.replicate 180 ()).length : ℚ) * (15/100)⌋] := by
  have hlen : ((List.replicate 180 ()).length : ℚ) = 180 := by
    simp
  have h1 : (UserSegmenter.segment (List.replicate 180 ()) 4).1.map Segment.size
      = [27, 62, 62, 27] := by
    simp only [UserSegmenter.segment, List.map_cons, List.map_nil, hlen,
      pyIntMulFloat_oneEighty_dbl15, pyIntMulFloat_oneEighty_dbl35]
  have h35 : ⌊((List.replicate 180 ()).length : ℚ) * (35/100)⌋ = 63 := by
    simp only [List.length_replicate]
    norm_num
  have h15 : ⌊((List.replicate 180 ()).length : ℚ) * (15/100)⌋ = 27 := by
    simp only [List.length_replicate]
    norm_num
  refine ⟨h1, h35, ?_⟩
  rw [h1, h35, h15]
  simp

/-- C5 corrected: for every `user_data` list and every `n_segments` (the
parameter is ignored: the result is identical for any two values),
`UserSegmenter.segment` returns exactly the 4 fixed segments
`champions/engaged/casual/at_risk` with non-negative integer sizes
`int(float(N) * 0.15)` and `int(float(N) * 0.35)` evaluated in IEEE double
arithmetic — which can fall one below the exact floors `⌊N*p⌋` (see the
`N = 180` counterexample); for `N = 20` (with `n_segments = 3`) the sizes
are `[3, 7, 7, 3]`, equal to the floors, summing to at most `20`. -/
theorem segmenter_fixed_four_segments_float :
    (∀ (α : Type) (user_data : List α) (n₁ n₂ : ℤ),
      (UserSegmenter.segment user_data n₁).1.length = 4
      ∧ (UserSegmenter.segment user_data n₁).1.map Segment.segment_id
          = ["champions", "engaged", "casual", "at_risk"]
      ∧ UserSegmenter.segment user_data n₁ = UserSegmenter.segment user_data n₂
      ∧ (UserSegmenter.segment user_data n₁).1.map Segment.size
          = [pyIntMulFloat (user_data.length : ℚ) dbl15,
             pyIntMulFloat (user_data.length : ℚ) dbl35,
             pyIntMulFloat (user_data.length : ℚ) dbl35,
             pyIntMulFloat (user_data.length : ℚ) dbl15]
      ∧ 0 ≤ pyIntMulFloat (user_data.length : ℚ) dbl15
      ∧ 0 ≤ pyIntMulFloat (user_data.length : ℚ) dbl35)
    ∧ (UserSegmenter.segment (List.replicate 20 ()) 3).1.map Segment.size
        = [3, 7, 7, 3]
    ∧ ((UserSegmenter.segment (List.replicate 20 ()) 3).1.map Segment.size).sum
        ≤ 20 := by
  refine ⟨?_, ?_, ?_⟩
  · intro α user_data n₁ n₂
    refine ⟨?_, ?_, rfl, ?_, ?_, ?_⟩
    · simp [UserSegmenter.segment]
    · simp [UserSegmenter.segment]
    · simp [UserSegmenter.segment]
    · exact pyIntMulFloat_nonneg (Nat.cast_nonneg _) (by norm_num [dbl15])
    · exact pyIntMulFloat_nonneg (Nat.cast_nonneg _) (by norm_num [dbl35])
  · simp [UserSegmenter.segment, pyIntMulFloat_twenty_dbl15,
      pyIntMulFloat_twenty_dbl35]
  · norm_num [UserSegmenter.segment, pyIntMulFloat_twenty_dbl15,
      pyIntMulFloat_twenty_dbl35]

/-! ### C9 -/

/-- C9 counterexample: on empty `user_data` the code does not fail — it
returns the 4 fixed segments, each with size `0` (there is no
`ValidationError` in the source). -/
theorem segmenter_returns_on_empty_input :
    (UserSegmenter.segment ([] : List Unit) 4).1.length = 4
    ∧ (UserSegmenter.segment ([] : List Unit) 4).1.map Segment.size
        = [0, 0, 0, 0] := by
  constructor <;> simp [UserSegmenter.segment, pyIntMulFloat_zero]

/-- C9 amended: empty `user_data` is accepted and yields the degenerate
valid result: the same 4 fixed segments, every size `0`. -/
theorem segmenter_empty_input_all_sizes_zero (α : Type) (n_segments : ℤ) :
    (UserSegmenter.segment ([] : List α) n_segments).1.map Segment.size
        = [0, 0, 0, 0]
    ∧ (UserSegmenter.segment ([] : List α) n_segments).1.map Segment.segment_id
        = ["champions", "engaged", "casual", "at_risk"] := by
  constructor <;> simp [UserSegmenter.segment, pyIntMulFloat_zero]

/-! ### C4 -/

theorem ChurnPredictor.riskLevel_iff (q : ℚ) :
    (ChurnPredictor.riskLevel q = "high" ↔ 7/10 < q)
    ∧ (ChurnPredictor.riskLevel q = "medium" ↔ 4/10 < q ∧ q ≤ 7/10)
    ∧ (ChurnPredictor.riskLevel q = "low" ↔ q ≤ 4/10) := by
  unfold ChurnPredictor.riskLevel
  split_ifs with h1 h2
  · refine ⟨iff_of_true rfl h1, ?_, ?_⟩
    · exact iff_of_false (by decide) (by intro hc; linarith [hc.2])
    · exact iff_of_false (by decide) (by intro hc; linarith)
  · refine ⟨iff_of_false (by decide) h1, ?_, ?_⟩
    · exact iff_of_true rfl ⟨h2, not_lt.mp h1⟩
    · exact iff_of_false (by decide) (by intro hc; linarith)
  · refine ⟨iff_of_false (by decide) h1, ?_, ?_⟩
    · exact iff_of_false (by decide) (by intro hc; exact h2 hc.1)
    · exact iff_of_true rfl (not_lt.mp h2)

theorem ChurnPredictor.round2_score_fixed (c₁ c₂ c₃ c₄ : Prop)
    [Decidable c₁] [Decidable c₂] [Decidable c₃] [Decidable c₄] :
    round2 (min (95/100) ((if c₁ then (3:ℚ)/10 else 0) + (if c₂ then (3:ℚ)/10 else 0)
      + (if c₃ then (2:ℚ)/10 else 0) + (if c₄ then (1:ℚ)/10 else 0)))
    = min (95/100) ((if c₁ then (3:ℚ)/10 else 0) + (if c₂ then (3:ℚ)/10 else 0)
      + (if c₃ then (2:ℚ)/10 else 0) + (if c₄ then (1:ℚ)/10 else 0)) := by
  split_ifs <;> norm_num [round2, rndHalfEven, min_def]

/-- C4: for every engagement history and clock reading, the returned
`risk_level` is determined from the returned `churn_probability` by strict
lower-exclusive thresholds: `high` iff `> 0.7`, `medium` iff
`0.4 < p ≤ 0.7`, `low` iff `≤ 0.4`; in particular the selection function at
probability exactly `0.7` yields `medium`, not `high`. -/
theorem churn_risk_level_matches_probability :
    (∀ (engagement_history : List EngagementRecord) (now : ℤ) (r : ChurnResult),
      ChurnPredictor.predict engagement_history now = some r →
        ((r.risk_level = "high" ↔ 7/10 < r.churn_probability)
        ∧ (r.risk_level = "medium"
            ↔ 4/10 < r.churn_probability ∧ r.churn_probability ≤ 7/10)
        ∧ (r.risk_level = "low" ↔ r.churn_probability ≤ 4/10)))
    ∧ ChurnPredictor.riskLevel (7/10) = "medium" := by
  constructor
  · intro engagement_history now r hr
    match engagement_history with
    | [] => simp [ChurnPredictor.predict] at hr
    | first :: rest =>
      simp only [ChurnPredictor.predict] at hr
      obtain rfl := Option.some.inj hr
      show (ChurnPredictor.riskLevel _ = "high" ↔ 7/10 < round2 _) ∧ _
      rw [ChurnPredictor.round2_score_fixed]
      exact ChurnPredictor.riskLevel_iff _
  · norm_num [ChurnPredictor.riskLevel]

/-- Witness for C4 at the single-record history `[{date := 0,
interactions := 1}]` with the clock at day `31`. -/
theorem churn_risk_level_matches_probability_witness :
    ChurnPredictor.predict [⟨0, 1⟩] 31
      = some ⟨3/5, "medium", ["Inactive for over 2 weeks", "Low engagement level"]⟩
    ∧ ((("medium" : String) = "high" ↔ (7:ℚ)/10 < 3/5)
      ∧ (("medium" : String) = "medium" ↔ (4:ℚ)/10 < 3/5 ∧ (3:ℚ)/5 ≤ 7/10)
      ∧ (("medium" : String) = "low" ↔ (3:ℚ)/5 ≤ 4/10)) := by
  have hp : ChurnPredictor.predict [⟨0, 1⟩] 31
      = some ⟨3/5, "medium", ["Inactive for over 2 weeks", "Low engagement level"]⟩ := by
    simp [ChurnPredictor.predict, ChurnPredictor.stdGt5, ChurnPredictor.riskLevel]
    norm_num [round2, rndHalfEven]
  exact ⟨hp, churn_risk_level_matches_probability.1 _ _ _ hp⟩

/-! ### C6 -/

/-- C6: `ChurnPredictor.predict` is total on single-record histories: the
trend rule contributes nothing (`last - first = 0` is not `< 0`) and the
variability rule contributes nothing (the one-point std is undefined in
pandas, `NaN > 5` is false), so only the inactivity and low-average rules
can fire; for the single record `interactions = 1` dated 31 days before the
clock, the contributions are `0.3 + 0.3`, giving probability `0.6` and risk
level `medium`. -/
theorem churn_single_record_total :
    (∀ (r : EngagementRecord) (now : ℤ),
      (ChurnPredictor.predict [r] now).map ChurnResult.churn_probability
        = some ((if 14 < now - r.date then (3:ℚ)/10 else 0)
            + (if r.interactions < 2 then (3:ℚ)/10 else 0)))
    ∧ (ChurnPredictor.predict [⟨0, 1⟩] 31).map
        (fun res => (res.churn_probability, res.risk_level))
      = some ((3:ℚ)/5, "medium") := by
  constructor
  · intro r now
    simp only [ChurnPredictor.predict, ChurnPredictor.stdGt5]
    by_cases h1 : 14 < now - r.date <;> by_cases h2 : r.interactions < 2 <;>
      simp [h1, h2, List.getLastD] <;>
      norm_num [round2, rndHalfEven, min_def]
  · simp [ChurnPredictor.predict, ChurnPredictor.stdGt5, ChurnPredictor.riskLevel]
    norm_num [round2, rndHalfEven]

/-! ### C7 -/

/-- C7 counterexample: at `forecast_periods = 0 < 1` the code does not fail
at all — the loop body never runs and two empty lists are returned (there
is no `ValidationError` in the source). -/
theorem adoption_predict_returns_on_zero_periods :
    AdoptionPredictor.predict [] 0 0 = ([], []) := by
  simp [AdoptionPredictor.predict]

/-- C7 amended: for every `forecast_periods < 1`,
`AdoptionPredictor.predict` raises nothing and returns empty `predictions`
and `confidence_intervals` lists (`range(1, forecast_periods + 1)` is
empty). -/
theorem adoption_predict_nonpositive_periods_empty (historical_data : List ℚ)
    (forecast_periods : ℤ) (now : ℚ) (h : forecast_periods < 1) :
    AdoptionPredictor.predict historical_data forecast_periods now = ([], []) := by
  have h0 : forecast_periods.toNat = 0 := by omega
  simp [AdoptionPredictor.predict, h0]

/-- Witness for C7's amended theorem at `forecast_periods = 0`. -/
theorem adoption_predict_nonpositive_periods_empty_witness :
    (0 : ℤ) < 1 ∧ AdoptionPredictor.predict [] 0 0 = ([], []) :=
  ⟨by decide, adoption_predict_nonpositive_periods_empty [] 0 0 (by decide)⟩
